import Mathlib

/-!
Shallow embedding of the vwap-reversion decision engine (Python sources under src/),
with theorems settling the frozen claims about the natural-language specification.

Conventions of the embedding:
* Python floats are modelled as rationals (ℚ); Python ints as ℤ (counts as ℕ).
* Time-of-day values compared as `datetime.time` objects are modelled as seconds
  since midnight (ℕ); values parsed from "%H:%M" strings (session_manager.py) are
  modelled as minutes since midnight (ℕ), since that parse truncates seconds.
* `math.sqrt` only ever appears in comparisons `sqrt e < b` (engine/policy.py) or as
  a z-score denominator; the comparison is embedded by the decidable `sqrtLtQ`,
  proven equivalent to the real-number statement in `sqrtLtQ_iff`.
* Fallible attribute access (Python `__slots__` classes raise AttributeError for
  attributes outside the slot list) is modelled with `Except PyError`.
-/

/-! ## Configuration constants (src/config.py) -/

def MIN_OBSERVATIONS_FOR_SIGNAL : ℕ := 300

def TICK_SIZE : ℚ := 1/4

def MIN_STD_TICKS : ℚ := 2

def EWMA_ALPHA : ℚ := 1/10

def MIN_VARIANCE_THRESHOLD : ℚ := 4

def ADX_TREND_THRESHOLD : ℚ := 25

def ADX_PERIOD : ℕ := 14

def Z_SCORE_PERSISTENCE_MINUTES : ℚ := 30

def Z_SCORE_PERSISTENCE_THRESHOLD : ℚ := 3/2

def MOMENTUM_THRESHOLD : ℚ := 2

def VELOCITY_THRESHOLD : ℚ := 4

def MOMENTUM_DIVERGENCE_THRESHOLD : ℚ := 3/2

def INITIAL_EMA_VARIANCE : ℚ := 16

/-- NY session start, 7:30 AM CT, in seconds since midnight (config.py). -/
def NY_SESSION_START : ℕ := 7 * 3600 + 30 * 60

/-- NY session end, 4:00 PM CT, in seconds since midnight (config.py). -/
def NY_SESSION_END : ℕ := 16 * 3600

/-- Morning restriction start 7:25 AM CT, seconds since midnight (config.py). -/
def MORNING_RESTRICTION_START : ℕ := 7 * 3600 + 25 * 60

/-- Morning restriction end 7:45 AM CT (config.py). -/
def MORNING_RESTRICTION_END : ℕ := 7 * 3600 + 45 * 60

/-- Afternoon restriction start 3:15 PM CT (config.py). -/
def AFTERNOON_RESTRICTION_START : ℕ := 15 * 3600 + 15 * 60

/-- Afternoon restriction end 5:00 PM CT (config.py). -/
def AFTERNOON_RESTRICTION_END : ℕ := 17 * 3600

/-! ## Decision messages (src/api/schemas.py, class DecisionMessage) -/

/-- DecisionMessage from api/schemas.py: action plus optional order fields. -/
structure DecisionMessage where
  action : String
  side : Option String
  orderType : Option String
  quantity : Option ℤ
  limitPrice : Option ℚ
  strategy : Option String
deriving DecidableEq

/-- DecisionMessage(action="hold"). -/
def holdDecision : DecisionMessage := ⟨"hold", none, none, none, none, none⟩

/-- DecisionMessage(action="flatten"). -/
def flattenDecision : DecisionMessage := ⟨"flatten", none, none, none, none, none⟩

/-- DecisionMessage(action="place", side=side, orderType="market", quantity=qty),
as built in engine/policy.py lines 87-92 and 109-114. -/
def placeDecision (side : String) (qty : ℤ) : DecisionMessage :=
  ⟨"place", some side, some "market", some qty, none, none⟩

/-! ## sqrt comparisons -/

/-- Decidable form of the float comparison `math.sqrt a < b` for rational inputs:
for every real `a`, `Real.sqrt a < b` iff `0 < b ∧ a < b * b` (see `sqrtLtQ_iff`). -/
def sqrtLtQ (a b : ℚ) : Bool :=
  decide (0 < b ∧ a < b * b)

/-- Python `x or default` on an optional float: `None` and `0.0` are falsy.
Used for `instrument_tick_size or self.tick_size` (engine/policy.py line 36). -/
def pyOrQ : Option ℚ → ℚ → ℚ
  | none, d => d
  | some t, d => if t = 0 then d else t

/-! ## Layered policy (src/engine/policy.py, class Policy) -/

/-- The per-direction entry-level trigger flags
(`entry_levels_triggered = {"long": [...], "short": [...]}`). -/
structure Triggered where
  long : List Bool
  short : List Bool
deriving DecidableEq

/-- Constructor parameters of engine/policy.py class Policy.  (The Python
constructor defaults reference `config.DEFAULT_Z_EXIT`, `config.Z_ENTRY_LEVELS`,
`config.ENTRY_QUANTITIES` and `config.MAX_TOTAL_POSITION`, none of which exist in
config.py; the claims quantify over a constructed policy, so the fields are taken
as given.) -/
structure Policy where
  z_exit : ℚ
  warmup_observations : ℕ
  tick_size : ℚ
  min_std_ticks : ℚ
  z_entry_levels : List ℚ
  entry_quantities : List ℤ
  max_total_position : ℤ

/-- Sum of `entry_quantities[i]` over indices whose trigger flag is set
(engine/policy.py lines 66-67).  The Python comprehension indexes quantities by
the positions of the flag list; the zip is equivalent when the flag list is no
longer than the quantity list. -/
def sumTriggered (qs : List ℤ) (flags : List Bool) : ℤ :=
  (qs.zip flags).foldl (fun a e => if e.2 then a + e.1 else a) 0

/-- `expected_position = expected_long_position + expected_short_position`
(engine/policy.py lines 66-68). -/
def expectedPosition (p : Policy) (t : Triggered) : ℤ :=
  sumTriggered p.entry_quantities t.long - sumTriggered p.entry_quantities t.short

/-- The long-side entry loop of engine/policy.py lines 79-99, over the levels
zipped with their quantities and trigger flags.  Returns the quantity of the
emitted order, if any, together with the updated flag list.  A level whose
position check fails is passed over without being marked and the loop continues
with the next level, exactly as the Python `for` loop does. -/
def scanLong (z : ℚ) (mx pos : ℤ) : List ((ℚ × ℤ) × Bool) → Option ℤ × List Bool
  | [] => (none, [])
  | ((thr, qty), flag) :: rest =>
    if z < -thr ∧ flag = false then
      if pos + qty ≤ mx then
        (some qty, true :: rest.map (fun e => e.2))
      else
        let r := scanLong z mx pos rest
        (r.1, flag :: r.2)
    else
      let r := scanLong z mx pos rest
      (r.1, flag :: r.2)

/-- The short-side entry loop of engine/policy.py lines 102-121, symmetric to
`scanLong` with the sign flipped and the cap check `pos - qty ≥ -mx`. -/
def scanShort (z : ℚ) (mx pos : ℤ) : List ((ℚ × ℤ) × Bool) → Option ℤ × List Bool
  | [] => (none, [])
  | ((thr, qty), flag) :: rest =>
    if thr < z ∧ flag = false then
      if -mx ≤ pos - qty then
        (some qty, true :: rest.map (fun e => e.2))
      else
        let r := scanShort z mx pos rest
        (r.1, flag :: r.2)
    else
      let r := scanShort z mx pos rest
      (r.1, flag :: r.2)

/-- The all-false trigger dictionary `{"long": [False]*len(levels), "short":
[False]*len(levels)}` built in engine/policy.py lines 50-51, 56-57 and 74-75. -/
def Policy.freshTriggered (p : Policy) : Triggered :=
  ⟨List.replicate p.z_entry_levels.length false, List.replicate p.z_entry_levels.length false⟩

/-- The layered-entry section of Policy.decide (engine/policy.py lines 78-123):
the long loop runs when `z_score < 0`, the short loop when `z_score > 0`, and
the function falls through to `hold` when neither loop returns. -/
def Policy.entries (p : Policy) (z_score : ℚ) (position_qty : ℤ) (trig : Triggered) :
    DecisionMessage × Option Triggered :=
  if z_score < 0 then
    match scanLong z_score p.max_total_position position_qty
      ((p.z_entry_levels.zip p.entry_quantities).zip trig.long) with
    | (some qty, fs) => (placeDecision "buy" qty, some ⟨fs, trig.short⟩)
    | (none, fs) => (holdDecision, some ⟨fs, trig.short⟩)
  else if 0 < z_score then
    match scanShort z_score p.max_total_position position_qty
      ((p.z_entry_levels.zip p.entry_quantities).zip trig.short) with
    | (some qty, fs) => (placeDecision "sell" qty, some ⟨trig.long, fs⟩)
    | (none, fs) => (holdDecision, some ⟨trig.long, fs⟩)
  else (holdDecision, some trig)

/-- Policy.decide of engine/policy.py lines 29-123, in source order: warmup
guard, variance guard, exit-and-reset, position-cap guard, reconciliation of
the trigger flags against the reported position, then the layered entry scans.
The second component of the result is the entry-level trigger dictionary as
visible after the call (the Python function mutates the dictionary in place;
when `None` was passed it builds a fresh local dictionary, returned here for
completeness).  `mid_price` and `spread` are accepted and never read, as in
the source. -/
def Policy.decide (p : Policy) (z_score : ℚ) (position_qty : ℤ)
    (mid_price spread : ℚ) (observation_count : ℕ) (ema_variance : ℚ)
    (instrument_tick_size : Option ℚ) (entry_levels_triggered : Option Triggered) :
    DecisionMessage × Option Triggered :=
  if observation_count < p.warmup_observations then
    (holdDecision, entry_levels_triggered)
  else if sqrtLtQ (max ema_variance MIN_VARIANCE_THRESHOLD)
      (p.min_std_ticks * pyOrQ instrument_tick_size p.tick_size) then
    (holdDecision, entry_levels_triggered)
  else if |z_score| < p.z_exit ∧ position_qty ≠ 0 then
    (flattenDecision, some p.freshTriggered)
  else if p.max_total_position ≤ |position_qty| then
    (holdDecision, some (entry_levels_triggered.getD p.freshTriggered))
  else
    p.entries z_score position_qty
      (if position_qty ≠ expectedPosition p (entry_levels_triggered.getD p.freshTriggered)
        then p.freshTriggered
        else entry_levels_triggered.getD p.freshTriggered)

/-- Claim-side predicate for the long-side scan: level `j` of the zipped list is
crossed, untriggered, and passes the position cap check. -/
def longActionable (z : ℚ) (mx pos : ℤ) (l : List ((ℚ × ℤ) × Bool)) (j : ℕ) : Bool :=
  match l.get? j with
  | some e => decide (z < -e.1.1) && (e.2 == false) && decide (pos + e.1.2 ≤ mx)
  | none => false

/-- Claim-side predicate for the short-side scan, symmetric to `longActionable`. -/
def shortActionable (z : ℚ) (mx pos : ℤ) (l : List ((ℚ × ℤ) × Bool)) (j : ℕ) : Bool :=
  match l.get? j with
  | some e => decide (e.1.1 < z) && (e.2 == false) && decide (-mx ≤ pos - e.1.2) 
  | none => false

/-- Per-tick policy inputs other than the venue position and trigger flags,
for iterating `Policy.decide` over a tick sequence. -/
structure TickInput where
  z_score : ℚ
  mid_price : ℚ
  spread : ℚ
  observation_count : ℕ
  ema_variance : ℚ
  instrument_tick_size : Option ℚ

/-- Effect of a decision on the tracked position: `place(buy, q)` adds `q`,
`place(sell, q)` subtracts `q`, `flatten` zeroes, `hold` leaves it (exactly the
expected-position update of engine/strategies/vwap_reversion.py lines 50-56). -/
def applyDecision (pos : ℤ) (d : DecisionMessage) : ℤ :=
  if d.action = "place" then
    if d.side = some "buy" then pos + d.quantity.getD 0
    else if d.side = some "sell" then pos - d.quantity.getD 0
    else pos
  else if d.action = "flatten" then 0
  else pos

/-- Iterate `Policy.decide` over a tick sequence, the venue position tracking
each emitted order via `applyDecision` and the trigger dictionary threaded
through the calls. -/
def Policy.run (p : Policy) : List TickInput → ℤ → Option Triggered → ℤ × Option Triggered
  | [], pos, trig => (pos, trig)
  | t :: rest, pos, trig =>
    let r := p.decide t.z_score pos t.mid_price t.spread t.observation_count
      t.ema_variance t.instrument_tick_size trig
    p.run rest (applyDecision pos r.1) r.2

/-! ## Python exceptions and datetimes -/

/-- Python exception raised by the modelled code paths. -/
inductive PyError where
  | attributeError (name : String)
deriving DecidableEq

/-- A `datetime.datetime` value as the core uses it: its time-of-day (seconds
since midnight, for `.time()` comparisons) and its absolute position in time
(seconds, for subtraction / `total_seconds()`). -/
structure PyDatetime where
  timeOfDay : ℕ
  epochSeconds : ℚ
deriving DecidableEq

/-! ## Per-symbol state (src/engine/state.py, class SymbolState) -/

/-- SymbolState (engine/state.py lines 6-27): exactly the fields declared in
`__slots__` and initialised in `__init__`. -/
structure SymbolState where
  observationCount : ℕ
  emaDeviation : ℚ
  emaVariance : ℚ
  currentSessionDate : Option String
  positionQty : ℤ
  adx_values : List ℚ
  high_prices : List ℚ
  low_prices : List ℚ
  z_score_persistence_start : Option PyDatetime
  z_score_above_threshold : Bool
  scaling_order_sent : Bool
deriving DecidableEq

/-- The `__slots__` tuple of SymbolState (engine/state.py lines 7-11), verbatim. -/
def SymbolState.slots : List String :=
  ["observationCount", "emaDeviation", "emaVariance", "currentSessionDate", "positionQty",
   "adx_values", "high_prices", "low_prices", "z_score_persistence_start",
   "z_score_above_threshold", "scaling_order_sent"]

/-- SymbolState.__init__ (engine/state.py lines 12-27). -/
def SymbolState.init : SymbolState :=
  ⟨0, 0, INITIAL_EMA_VARIANCE, none, 0, [], [], [], none, false, false⟩

/-- SymbolState.reset_session (engine/state.py lines 29-41): statistics and
trend-filter / scaling bookkeeping restart; `positionQty` (and
`currentSessionDate`, which the caller rewrites afterwards) are untouched. -/
def SymbolState.reset_session (s : SymbolState) : SymbolState :=
  { s with
    observationCount := 0
    emaDeviation := 0
    emaVariance := INITIAL_EMA_VARIANCE
    adx_values := []
    high_prices := []
    low_prices := []
    z_score_persistence_start := none
    z_score_above_threshold := false
    scaling_order_sent := false }

/-- Attribute read of a list-of-float attribute on a SymbolState.  SymbolState
declares `__slots__`, so reading any attribute outside the slot list raises
AttributeError; the only list-of-float slots are `adx_values`, `high_prices`
and `low_prices`. -/
def SymbolState.getattrFloatList (s : SymbolState) (name : String) :
    Except PyError (List ℚ) :=
  if name = "adx_values" then .ok s.adx_values
  else if name = "high_prices" then .ok s.high_prices
  else if name = "low_prices" then .ok s.low_prices
  else .error (.attributeError name)

/-- Python truthiness of an optional string (`None` and `""` are falsy), for
`if state.currentSessionDate and ...` in engine/engine.py line 20. -/
def strOptTruthy : Option String → Bool
  | none => false
  | some d => d ≠ ""

/-- DecisionEngine._maybe_reset_session (engine/engine.py lines 19-33): on a
session-date change (with a truthy prior date) reset the state, then record the
new date.  The plausibility check on the date strings only logs. -/
def DecisionEngine.maybe_reset_session (s : SymbolState) (session_date : String) :
    SymbolState :=
  let s' := if strOptTruthy s.currentSessionDate ∧ s.currentSessionDate ≠ some session_date
    then s.reset_session else s
  { s' with currentSessionDate := some session_date }

/-! ## Indicators (src/strategies/vwap_reversion/indicators.py) -/

/-- The state-mutation part of update_ewma_z (indicators.py lines 9-17): seed on
the first observation of a session, otherwise the EWMA recurrence with the
pre-update mean captured for the variance term. -/
def update_ewma_z_core (s : SymbolState) (deviation alpha : ℚ) : SymbolState :=
  if s.observationCount = 1 then
    { s with emaDeviation := deviation, emaVariance := |deviation| * 2 }
  else
    let prev_ema_deviation := s.emaDeviation
    { s with
      emaDeviation := (1 - alpha) * s.emaDeviation + alpha * deviation
      emaVariance := (1 - alpha) * s.emaVariance + alpha * (deviation - prev_ema_deviation) ^ 2 }

/-- The bias-corrected variance of update_ewma_z (indicators.py lines 20-25),
computed on the already-updated state. -/
def bias_corrected_variance (s : SymbolState) (alpha : ℚ) : ℚ :=
  if s.observationCount < 20 then
    s.emaVariance / ((1 - (1 - alpha) ^ s.observationCount) / (1 - (1 - alpha)))
  else
    s.emaVariance

/-- _smooth_variance_floor (indicators.py lines 31-39), verbatim. -/
def smooth_variance_floor (variance min_threshold : ℚ) : ℚ :=
  if variance ≤ min_threshold then min_threshold
  else if variance < min_threshold * (3/2) then
    let blend_factor := (variance - min_threshold) / (min_threshold * (1/2))
    min_threshold + (variance - min_threshold) * blend_factor
  else variance

/-- The effective variance whose square root is the z-score denominator in
update_ewma_z (indicators.py lines 27-29): the floored, bias-corrected variance
of the updated state.  The returned z-score is
`deviation / Real.sqrt (effective variance)`. -/
def update_ewma_z_effectiveVariance (s : SymbolState) (deviation alpha : ℚ) : ℚ :=
  smooth_variance_floor
    (bias_corrected_variance (update_ewma_z_core s deviation alpha) alpha)
    MIN_VARIANCE_THRESHOLD

/-! ## Trend filter (src/strategies/vwap_reversion/trend_filter.py, class TrendFilter) -/

/-- Python negative indexing `l[-k]` on a non-empty list of floats. -/
def nthFromEnd (l : List ℚ) (k : ℕ) : ℚ :=
  l.getD (l.length - k) 0

/-- TrendFilter._is_ny_session (trend_filter.py lines 58-61): inclusive
time-of-day comparison against the configured NY session bounds. -/
def TrendFilter.is_ny_session (t : PyDatetime) : Bool :=
  decide (NY_SESSION_START ≤ t.timeOfDay ∧ t.timeOfDay ≤ NY_SESSION_END)

/-- TrendFilter._update_price_momentum (trend_filter.py lines 169-193).  Its
first statement `state.price_history.append(current_price)` reads the attribute
`price_history`, which is not in SymbolState's `__slots__`, so the read raises
AttributeError; the remainder of the function is transcribed for completeness.
The `timestamp` parameter is unused by the body, as in the source. -/
def TrendFilter.update_price_momentum (s : SymbolState) (current_price : ℚ)
    (timestamp : Option PyDatetime) : Except PyError (ℚ × SymbolState) := do
  let ph0 ← s.getattrFloatList "price_history"
  let ph1 := ph0 ++ [current_price]
  let ph := if 20 < ph1.length then ph1.drop (ph1.length - 20) else ph1
  if ph.length < 5 then
    return (0, s)
  else
    let short_momentum := (current_price - nthFromEnd ph 3) / nthFromEnd ph 3 * 100
    let medium_momentum :=
      if 6 ≤ ph.length then (current_price - nthFromEnd ph 6) / nthFromEnd ph 6 * 100 else 0
    return ((7/10) * short_momentum + (3/10) * medium_momentum, s)

/-- TrendFilter._calculate_adx (trend_filter.py lines 84-140): simplified
Wilder ADX over the retained high/low windows, appending the new DX value to
the state's rolling `adx_values`. -/
def TrendFilter.calculate_adx (s : SymbolState) (highs lows : List ℚ) :
    ℚ × SymbolState :=
  let period := ADX_PERIOD
  let steps := (highs.zip lows).zip ((highs.zip lows).drop 1)
  let tr_values := steps.map (fun st =>
    max (st.2.1 - st.2.2) (max |st.2.1 - st.1.1| |st.2.2 - st.1.2|))
  let dm_plus := steps.map (fun st =>
    let up_move := st.2.1 - st.1.1
    let down_move := st.1.2 - st.2.2
    if down_move < up_move ∧ 0 < up_move then up_move else 0)
  let dm_minus := steps.map (fun st =>
    let up_move := st.2.1 - st.1.1
    let down_move := st.1.2 - st.2.2
    if up_move < down_move ∧ 0 < down_move then down_move else 0)
  if tr_values.length < period then (0, s)
  else
    let atr := (tr_values.drop (tr_values.length - period)).sum / (period : ℚ)
    let adm_plus := (dm_plus.drop (dm_plus.length - period)).sum / (period : ℚ)
    let adm_minus := (dm_minus.drop (dm_minus.length - period)).sum / (period : ℚ)
    if atr = 0 then (0, s)
    else
      let di_plus := adm_plus / atr * 100
      let di_minus := adm_minus / atr * 100
      let dx := |di_plus - di_minus| / (di_plus + di_minus + 1 / 10 ^ 10) * 100
      let adx_vals1 := s.adx_values ++ [dx]
      let adx_vals := if period < adx_vals1.length
        then adx_vals1.drop (adx_vals1.length - period) else adx_vals1
      (adx_vals.sum / (adx_vals.length : ℚ), { s with adx_values := adx_vals })

/-- TrendFilter._update_and_get_adx (trend_filter.py lines 63-82): record the
new high/low, trim the windows to `ADX_PERIOD + 1`, and compute ADX once enough
observations are retained. -/
def TrendFilter.update_and_get_adx (s : SymbolState) (high low : ℚ) :
    Option ℚ × SymbolState :=
  let highs1 := s.high_prices ++ [high]
  let lows1 := s.low_prices ++ [low]
  let max_len := ADX_PERIOD + 1
  let highs := if max_len < highs1.length then highs1.drop (highs1.length - max_len) else highs1
  let lows := if max_len < lows1.length then lows1.drop (lows1.length - max_len) else lows1
  let s1 := { s with high_prices := highs, low_prices := lows }
  if highs.length < ADX_PERIOD + 1 then (none, s1)
  else
    let r := TrendFilter.calculate_adx s1 highs lows
    (some r.1, r.2)

/-- TrendFilter._update_z_score_persistence (trend_filter.py lines 142-167). -/
def TrendFilter.update_z_score_persistence (s : SymbolState) (z : ℚ)
    (timestamp : Option PyDatetime) : Bool × SymbolState :=
  if Z_SCORE_PERSISTENCE_THRESHOLD < |z| then
    if s.z_score_above_threshold = false then
      (false, { s with z_score_above_threshold := true, z_score_persistence_start := timestamp })
    else
      match timestamp, s.z_score_persistence_start with
      | some t, some start =>
        (decide (Z_SCORE_PERSISTENCE_MINUTES < (t.epochSeconds - start.epochSeconds) / 60), s)
      | _, _ => (false, s)
  else
    (false, { s with z_score_above_threshold := false, z_score_persistence_start := none })

/-- TrendFilter._check_price_velocity (trend_filter.py lines 195-216): reads
`state.price_history`, absent from SymbolState's `__slots__`. -/
def TrendFilter.check_price_velocity (s : SymbolState) (current_price : ℚ) :
    Except PyError Bool := do
  let ph ← s.getattrFloatList "price_history"
  if ph.length < 10 then return false
  else
    let idxs := (List.range ph.length).drop (ph.length - 5)
    let recent_changes := (idxs.filter (fun i => 0 < i)).map
      (fun i => |ph.getD i 0 - ph.getD (i - 1) 0|)
    if recent_changes.isEmpty then return false
    else return decide (VELOCITY_THRESHOLD < recent_changes.sum / (recent_changes.length : ℚ))

/-- TrendFilter._check_momentum_divergence (trend_filter.py lines 218-246):
reads `state.price_history` and `state.z_score_history`, both absent from
SymbolState's `__slots__`. -/
def TrendFilter.check_momentum_divergence (s : SymbolState) (current_price z : ℚ) :
    Except PyError (Bool × SymbolState) := do
  let ph ← s.getattrFloatList "price_history"
  if ph.length < 10 then return (false, s)
  else
    let zh0 ← s.getattrFloatList "z_score_history"
    let zh1 := zh0 ++ [|z|]
    let zh := if 10 < zh1.length then zh1.drop (zh1.length - 10) else zh1
    let recent_prices := ph.drop (ph.length - 5)
    let recent_z := if 5 ≤ zh.length then zh.drop (zh.length - 5) else []
    if recent_z.length < 5 then return (false, s)
    else
      let price_trend := recent_prices.getLastD 0 - recent_prices.headD 0
      let z_score_trend := recent_z.getLastD 0 - recent_z.headD 0
      return (decide (MOMENTUM_DIVERGENCE_THRESHOLD < |price_trend| ∧
        (1/2 : ℚ) < |z_score_trend| ∧ (5/2 : ℚ) < |z|), s)

/-- TrendFilter.should_avoid_mean_reversion (trend_filter.py lines 18-56):
outside the NY session the filter is skipped; otherwise the component checks run
in source order (price momentum first, whose `price_history` read raises). -/
def TrendFilter.should_avoid_mean_reversion (s : SymbolState)
    (z high_price low_price current_price : ℚ) (timestamp : Option PyDatetime) :
    Except PyError (Bool × SymbolState) :=
  if (match timestamp with
      | some t => !TrendFilter.is_ny_session t
      | none => false : Bool) then
    .ok (false, s)
  else do
    let r1 ← TrendFilter.update_price_momentum s current_price timestamp
    let price_momentum := r1.1
    let r2 := TrendFilter.update_and_get_adx r1.2 high_price low_price
    let current_adx := r2.1
    let r3 := TrendFilter.update_z_score_persistence r2.2 z timestamp
    let is_persistent := r3.1
    let high_velocity ← TrendFilter.check_price_velocity r3.2 current_price
    let r4 ← TrendFilter.check_momentum_divergence r3.2 current_price z
    let momentum_divergence := r4.1
    let adx_trending := match current_adx with
      | none => false
      | some a => decide (ADX_TREND_THRESHOLD < a)
    let strong_momentum := decide (MOMENTUM_THRESHOLD < |price_momentum|)
    let trend_detected := adx_trending || is_persistent || high_velocity ||
      strong_momentum || momentum_divergence
    .ok (trend_detected, r4.2)

/-! ## Orchestrator restriction gate (src/engine/engine.py) -/

/-- DecisionEngine._is_restricted_hours (engine/engine.py lines 49-69): both
restriction windows are inclusive at both ends; a missing timestamp allows
trading. -/
def DecisionEngine.is_restricted_hours : Option ℕ → Bool
  | none => false
  | some t =>
    (decide (MORNING_RESTRICTION_START ≤ t) && decide (t ≤ MORNING_RESTRICTION_END)) ||
    (decide (AFTERNOON_RESTRICTION_START ≤ t) && decide (t ≤ AFTERNOON_RESTRICTION_END))

/-- The restriction gate of DecisionEngine.decide (engine/engine.py lines
84-94): during restricted hours the tick's reported position decides between
`flatten` and `hold`; otherwise the engine delegates to the strategy, whose
decision is taken here as a parameter. -/
def DecisionEngine.decide_gate (timestamp : Option ℕ) (tickPositionQty : ℤ)
    (strategyDecision : DecisionMessage) : DecisionMessage :=
  if DecisionEngine.is_restricted_hours timestamp then
    if tickPositionQty ≠ 0 then flattenDecision else holdDecision
  else strategyDecision

/-! ## Session manager (src/engine/session_manager.py) -/

/-- SessionManager._is_time_in_session (session_manager.py lines 34-49), on
times-of-day in minutes since midnight (the source truncates to "%H:%M"):
wrap-around sessions use `now ≥ start or now ≤ end`, other sessions the
inclusive comparison `start ≤ now ≤ end`. -/
def SessionManager.is_time_in_session (now start_time end_time : ℕ) : Bool :=
  if end_time < start_time then
    decide (start_time ≤ now) || decide (now ≤ end_time)
  else
    decide (start_time ≤ now) && decide (now ≤ end_time)

/-! ## Concrete instances for witnesses and counterexamples -/

/-- A layered policy with the configured warmup count and the spec's Scenario A
level ladder. -/
def testPolicy : Policy :=
  ⟨1, MIN_OBSERVATIONS_FOR_SIGNAL, 1, 2, [20, 40, 75], [1, 1, 1], 3⟩

/-- A layered policy whose first entry quantity (3) is larger than the second
(1), so that the position cap can block a lower level while a higher level
still fits. -/
def gapPolicy : Policy :=
  ⟨1, 0, 1, 0, [1, 2], [3, 1], 3⟩

/-! ## Helper lemmas -/

theorem sqrtLtQ_iff (a b : ℚ) :
    sqrtLtQ a b = true ↔ Real.sqrt (a : ℝ) < (b : ℝ) := by
  unfold sqrtLtQ
  rw [decide_eq_true_eq]
  constructor
  · rintro ⟨hb, hab⟩
    have hb' : (0 : ℝ) < (b : ℝ) := by exact_mod_cast hb
    rw [Real.sqrt_lt' hb']
    have h : ((a : ℝ)) < (b : ℝ) * (b : ℝ) := by exact_mod_cast hab
    nlinarith [h]
  · intro h
    have hb' : (0 : ℝ) < (b : ℝ) := lt_of_le_of_lt (Real.sqrt_nonneg _) h
    have hab : (a : ℝ) < (b : ℝ) ^ 2 := (Real.sqrt_lt' hb').mp h
    refine ⟨by exact_mod_cast hb', ?_⟩
    have h2 : (a : ℝ) < (b : ℝ) * (b : ℝ) := by nlinarith
    exact_mod_cast h2

theorem scanLong_emit (z : ℚ) (mx pos : ℤ) :
    ∀ (l : List ((ℚ × ℤ) × Bool)) (q : ℤ),
      (scanLong z mx pos l).1 = some q → pos + q ≤ mx ∧ ∃ e ∈ l, e.1.2 = q := by
  intro l
  induction l with
  | nil => intro q h; simp [scanLong] at h
  | cons hd tl ih =>
    intro q h
    obtain ⟨⟨thr, qty⟩, flag⟩ := hd
    simp only [scanLong] at h
    split_ifs at h with h1 h2
    · simp only [Prod.fst] at h
      obtain rfl : qty = q := by simpa using h
      exact ⟨h2, ⟨((thr, qty), flag), by simp⟩⟩
    · simp only [Prod.fst] at h
      obtain ⟨hb, e, he, heq⟩ := ih q h
      exact ⟨hb, e, by simp [he], heq⟩
    · simp only [Prod.fst] at h
      obtain ⟨hb, e, he, heq⟩ := ih q h
      exact ⟨hb, e, by simp [he], heq⟩

theorem scanShort_emit (z : ℚ) (mx pos : ℤ) :
    ∀ (l : List ((ℚ × ℤ) × Bool)) (q : ℤ),
      (scanShort z mx pos l).1 = some q → -mx ≤ pos - q ∧ ∃ e ∈ l, e.1.2 = q := by
  intro l
  induction l with
  | nil => intro q h; simp [scanShort] at h
  | cons hd tl ih =>
    intro q h
    obtain ⟨⟨thr, qty⟩, flag⟩ := hd
    simp only [scanShort] at h
    split_ifs at h with h1 h2
    · simp only [Prod.fst] at h
      obtain rfl : qty = q := by simpa using h
      exact ⟨h2, ⟨((thr, qty), flag), by simp⟩⟩
    · simp only [Prod.fst] at h
      obtain ⟨hb, e, he, heq⟩ := ih q h
      exact ⟨hb, e, by simp [he], heq⟩
    · simp only [Prod.fst] at h
      obtain ⟨hb, e, he, heq⟩ := ih q h
      exact ⟨hb, e, by simp [he], heq⟩

theorem mem_snd_of_zip3 {A : List ℚ} {B : List ℤ} {C : List Bool}
    {e : (ℚ × ℤ) × Bool} (h : e ∈ (A.zip B).zip C) : e.1.2 ∈ B :=
  (List.of_mem_zip (List.of_mem_zip h).1).2

theorem entries_result_cases (p : Policy) (z : ℚ) (pos : ℤ) (trig : Triggered) :
    (p.entries z pos trig).1 = holdDecision ∨
    (∃ q, (p.entries z pos trig).1 = placeDecision "buy" q ∧
      pos + q ≤ p.max_total_position ∧ q ∈ p.entry_quantities) ∨
    (∃ q, (p.entries z pos trig).1 = placeDecision "sell" q ∧
      -p.max_total_position ≤ pos - q ∧ q ∈ p.entry_quantities) := by
  unfold Policy.entries
  split_ifs with h1 h2
  · rcases hscan : scanLong z p.max_total_position pos
      ((p.z_entry_levels.zip p.entry_quantities).zip trig.long) with ⟨o, fs⟩
    rcases o with _ | q
    · exact Or.inl rfl
    · refine Or.inr (Or.inl ⟨q, rfl, ?_, ?_⟩)
      · exact (scanLong_emit z p.max_total_position pos _ q (by rw [hscan])).1
      · obtain ⟨-, e, he, rfl⟩ := scanLong_emit z p.max_total_position pos _ q (by rw [hscan])
        exact mem_snd_of_zip3 he
  · rcases hscan : scanShort z p.max_total_position pos
      ((p.z_entry_levels.zip p.entry_quantities).zip trig.short) with ⟨o, fs⟩
    rcases o with _ | q
    · exact Or.inl rfl
    · refine Or.inr (Or.inr ⟨q, rfl, ?_, ?_⟩)
      · exact (scanShort_emit z p.max_total_position pos _ q (by rw [hscan])).1
      · obtain ⟨-, e, he, rfl⟩ := scanShort_emit z p.max_total_position pos _ q (by rw [hscan])
        exact mem_snd_of_zip3 he
  · exact Or.inl rfl

theorem decide_result_cases (p : Policy) (z : ℚ) (pos : ℤ) (mid spread : ℚ)
    (obs : ℕ) (var : ℚ) (tick : Option ℚ) (trig : Option Triggered) :
    (p.decide z pos mid spread obs var tick trig).1 = holdDecision ∨
    (p.decide z pos mid spread obs var tick trig).1 = flattenDecision ∨
    (∃ q, (p.decide z pos mid spread obs var tick trig).1 = placeDecision "buy" q ∧
      pos + q ≤ p.max_total_position ∧ q ∈ p.entry_quantities) ∨
    (∃ q, (p.decide z pos mid spread obs var tick trig).1 = placeDecision "sell" q ∧
      -p.max_total_position ≤ pos - q ∧ q ∈ p.entry_quantities) := by
  unfold Policy.decide
  split_ifs with h1 h2 h3 h4
  · exact Or.inl rfl
  · exact Or.inl rfl
  · exact Or.inr (Or.inl rfl)
  · exact Or.inl rfl
  all_goals
    rcases entries_result_cases p z pos _ with h | h | h
    · exact Or.inl h
    · exact Or.inr (Or.inr (Or.inl h))
    · exact Or.inr (Or.inr (Or.inr h))

theorem decide_not_place_of_cap (p : Policy) (z : ℚ) (pos : ℤ) (mid spread : ℚ)
    (obs : ℕ) (var : ℚ) (tick : Option ℚ) (trig : Option Triggered)
    (hcap : p.max_total_position ≤ |pos|) :
    (p.decide z pos mid spread obs var tick trig).1.action ≠ "place" := by
  unfold Policy.decide
  split_ifs with h1 h2 h3
  · simp [holdDecision]
  · simp [holdDecision]
  · simp [flattenDecision]
  · simp [holdDecision]

theorem applyDecision_hold (pos : ℤ) : applyDecision pos holdDecision = pos := by
  simp [applyDecision, holdDecision]

theorem applyDecision_flatten (pos : ℤ) : applyDecision pos flattenDecision = 0 := by
  simp [applyDecision, flattenDecision]

theorem applyDecision_buy (pos q : ℤ) : applyDecision pos (placeDecision "buy" q) = pos + q := by
  simp [applyDecision, placeDecision]

theorem applyDecision_sell (pos q : ℤ) : applyDecision pos (placeDecision "sell" q) = pos - q := by
  simp [applyDecision, placeDecision]

theorem run_step_bound (p : Policy) (hq : ∀ q ∈ p.entry_quantities, 0 ≤ q)
    (z : ℚ) (pos : ℤ) (mid spread : ℚ) (obs : ℕ) (var : ℚ) (tick : Option ℚ)
    (trig : Option Triggered) (hpos : |pos| ≤ p.max_total_position) :
    |applyDecision pos (p.decide z pos mid spread obs var tick trig).1| ≤
      p.max_total_position := by
  rcases decide_result_cases p z pos mid spread obs var tick trig with
    h | h | ⟨q, h, hb, hm⟩ | ⟨q, h, hb, hm⟩
  · rw [h, applyDecision_hold]
    exact hpos
  · rw [h, applyDecision_flatten]
    simpa using le_trans (abs_nonneg pos) hpos
  · rw [h, applyDecision_buy]
    rw [abs_le] at hpos ⊢
    exact ⟨by linarith [hq q hm], by linarith⟩
  · rw [h, applyDecision_sell]
    rw [abs_le] at hpos ⊢
    exact ⟨by linarith, by linarith [hq q hm]⟩

theorem run_bound (p : Policy) (hq : ∀ q ∈ p.entry_quantities, 0 ≤ q) :
    ∀ (ticks : List TickInput) (pos : ℤ) (trig : Option Triggered),
      |pos| ≤ p.max_total_position →
      |(p.run ticks pos trig).1| ≤ p.max_total_position := by
  intro ticks
  induction ticks with
  | nil => intro pos trig h; simpa [Policy.run] using h
  | cons t rest ih =>
    intro pos trig h
    simp only [Policy.run]
    exact ih _ _ (run_step_bound p hq t.z_score pos t.mid_price t.spread
      t.observation_count t.ema_variance t.instrument_tick_size trig h)

/-- C2: the position cap is never exceeded by construction.  For every call to
the layered Policy.decide: if `|positionQty| ≥ maxTotalPosition` the decision is
not place; every emitted `place(buy, q)` satisfies
`positionQty + q ≤ maxTotalPosition`; every emitted `place(sell, q)` satisfies
`positionQty - q ≥ -maxTotalPosition`; hence no sequence of decisions, with the
venue position tracking the emitted orders, drives `|positionQty|` past
`maxTotalPosition` (the configured entry quantities being nonnegative). -/
theorem c2_position_cap_never_exceeded (p : Policy)
    (hq : ∀ q ∈ p.entry_quantities, 0 ≤ q) :
    (∀ z pos mid spread obs var tick trig, p.max_total_position ≤ |pos| →
      (p.decide z pos mid spread obs var tick trig).1.action ≠ "place")
    ∧ (∀ z pos mid spread obs var tick trig q,
        (p.decide z pos mid spread obs var tick trig).1 = placeDecision "buy" q →
        pos + q ≤ p.max_total_position)
    ∧ (∀ z pos mid spread obs var tick trig q,
        (p.decide z pos mid spread obs var tick trig).1 = placeDecision "sell" q →
        -p.max_total_position ≤ pos - q)
    ∧ (∀ (ticks : List TickInput) (pos : ℤ) (trig : Option Triggered),
        |pos| ≤ p.max_total_position →
        |(p.run ticks pos trig).1| ≤ p.max_total_position) := by
  refine ⟨?_, ?_, ?_, run_bound p hq⟩
  · intro z pos mid spread obs var tick trig hcap
    exact decide_not_place_of_cap p z pos mid spread obs var tick trig hcap
  · intro z pos mid spread obs var tick trig q hd
    rcases decide_result_cases p z pos mid spread obs var tick trig with
      h | h | ⟨q', h, hb, hm⟩ | ⟨q', h, hb, hm⟩
    · rw [hd] at h
      exact absurd h (by simp [placeDecision, holdDecision])
    · rw [hd] at h
      exact absurd h (by simp [placeDecision, flattenDecision])
    · rw [h] at hd
      obtain rfl : q' = q := by simpa [placeDecision] using hd
      exact hb
    · rw [h] at hd
      exact absurd hd (by simp [placeDecision])
  · intro z pos mid spread obs var tick trig q hd
    rcases decide_result_cases p z pos mid spread obs var tick trig with
      h | h | ⟨q', h, hb, hm⟩ | ⟨q', h, hb, hm⟩
    · rw [hd] at h
      exact absurd h (by simp [placeDecision, holdDecision])
    · rw [hd] at h
      exact absurd h (by simp [placeDecision, flattenDecision])
    · rw [h] at hd
      exact absurd hd (by simp [placeDecision])
    · rw [h] at hd
      obtain rfl : q' = q := by simpa [placeDecision] using hd
      exact hb

/-- Witness for C2: concrete applications at `gapPolicy` — a capped position
never places, and a one-tick run from flat stays within the cap. -/
theorem c2_position_cap_witness :
    (gapPolicy.decide 0 5 0 0 10 100 none none).1.action ≠ "place" ∧
    |(gapPolicy.run [⟨-3, 0, 0, 10, 100, none⟩] 0 none).1| ≤
      gapPolicy.max_total_position := by
  constructor
  · exact (c2_position_cap_never_exceeded gapPolicy (by decide)).1
      0 5 0 0 10 100 none none (by decide)
  · exact (c2_position_cap_never_exceeded gapPolicy (by decide)).2.2.2
      [⟨-3, 0, 0, 10, 100, none⟩] 0 none (by decide)

/-- Counterexample to C3 as stated: a call with `positionQty = 1 ≠ 0` and
`|zScore| = 0 < zExit` but `observation_count = 0` below the warmup returns
`hold`, not `flatten` — the warmup (and volatility) guards precede the exit
check in engine/policy.py. -/
theorem c3_counterexample :
    (1 : ℤ) ≠ 0 ∧ |(0 : ℚ)| < testPolicy.z_exit ∧
    (testPolicy.decide 0 1 0 0 0 16 none
      (some ⟨[false, false, false], [false, false, false]⟩)).1 = holdDecision ∧
    holdDecision ≠ flattenDecision := by
  refine ⟨by decide, by decide, by decide, by decide⟩

/-- C3 (amended): for every call to the layered Policy.decide that passes the
warmup and volatility guards, `positionQty ≠ 0` and `|zScore| < zExit` force a
`flatten` decision and reset every entry-level trigger flag in both directions
to false. -/
theorem c3_exit_takes_priority (p : Policy) (z : ℚ) (pos : ℤ) (mid spread : ℚ)
    (obs : ℕ) (var : ℚ) (tick : Option ℚ) (trig : Option Triggered)
    (hw : p.warmup_observations ≤ obs)
    (hv : sqrtLtQ (max var MIN_VARIANCE_THRESHOLD)
      (p.min_std_ticks * pyOrQ tick p.tick_size) = false)
    (hpos : pos ≠ 0) (hz : |z| < p.z_exit) :
    p.decide z pos mid spread obs var tick trig =
      (flattenDecision, some p.freshTriggered) := by
  unfold Policy.decide
  rw [if_neg (by omega), if_neg (by simp [hv]), if_pos ⟨hz, hpos⟩]

/-- Witness for C3 (amended) at a warmed-up concrete call with one long level
triggered. -/
theorem c3_exit_takes_priority_witness :
    testPolicy.decide 0 1 0 0 300 16 none
      (some ⟨[true, false, false], [false, false, false]⟩) =
      (flattenDecision, some testPolicy.freshTriggered) :=
  c3_exit_takes_priority testPolicy 0 1 0 0 300 16 none
    (some ⟨[true, false, false], [false, false, false]⟩)
    (by decide) (by norm_num [sqrtLtQ, pyOrQ, testPolicy, MIN_VARIANCE_THRESHOLD])
    (by decide) (by decide)

/-- C10: the layered Policy.decide result is independent of its spread
argument — two calls identical except for the spread value return the same
decision and the same trigger-flag state (the canonical layered policy
configures no spread guard and never reads spread). -/
theorem c10_spread_independence (p : Policy) (z : ℚ) (pos : ℤ) (mid s1 s2 : ℚ)
    (obs : ℕ) (var : ℚ) (tick : Option ℚ) (trig : Option Triggered) :
    p.decide z pos mid s1 obs var tick trig = p.decide z pos mid s2 obs var tick trig := rfl

theorem longActionable_cons_succ (z : ℚ) (mx pos : ℤ) (hd : (ℚ × ℤ) × Bool)
    (tl : List ((ℚ × ℤ) × Bool)) (j : ℕ) :
    longActionable z mx pos (hd :: tl) (j + 1) = longActionable z mx pos tl j := rfl

theorem shortActionable_cons_succ (z : ℚ) (mx pos : ℤ) (hd : (ℚ × ℤ) × Bool)
    (tl : List ((ℚ × ℤ) × Bool)) (j : ℕ) :
    shortActionable z mx pos (hd :: tl) (j + 1) = shortActionable z mx pos tl j := rfl

theorem scanLong_no_actionable (z : ℚ) (mx pos : ℤ) :
    ∀ (l : List ((ℚ × ℤ) × Bool)),
      (∀ j, longActionable z mx pos l j = false) →
      scanLong z mx pos l = (none, l.map (fun e => e.2)) := by
  intro l
  induction l with
  | nil => intro _; simp [scanLong]
  | cons hd tl ih =>
    intro h
    obtain ⟨⟨thr, qty⟩, flag⟩ := hd
    have h0 := h 0
    have htl : ∀ j, longActionable z mx pos tl j = false := by
      intro j
      have := h (j + 1)
      rwa [longActionable_cons_succ] at this
    simp only [longActionable, List.get?] at h0
    simp only [scanLong]
    split_ifs with h1 h2
    · exfalso
      simp [h1.1, h1.2, h2] at h0
    · rw [ih htl]
      simp
    · rw [ih htl]
      simp

theorem scanShort_no_actionable (z : ℚ) (mx pos : ℤ) :
    ∀ (l : List ((ℚ × ℤ) × Bool)),
      (∀ j, shortActionable z mx pos l j = false) →
      scanShort z mx pos l = (none, l.map (fun e => e.2)) := by
  intro l
  induction l with
  | nil => intro _; simp [scanShort]
  | cons hd tl ih =>
    intro h
    obtain ⟨⟨thr, qty⟩, flag⟩ := hd
    have h0 := h 0
    have htl : ∀ j, shortActionable z mx pos tl j = false := by
      intro j
      have := h (j + 1)
      rwa [shortActionable_cons_succ] at this
    simp only [shortActionable, List.get?] at h0
    simp only [scanShort]
    split_ifs with h1 h2
    · exfalso
      simp [h1.1, h1.2, h2] at h0
    · rw [ih htl]
      simp
    · rw [ih htl]
      simp

theorem scanLong_first_actionable (z : ℚ) (mx pos : ℤ) :
    ∀ (l : List ((ℚ × ℤ) × Bool)) (i : ℕ) (e : (ℚ × ℤ) × Bool),
      l.get? i = some e →
      longActionable z mx pos l i = true →
      (∀ j, j < i → longActionable z mx pos l j = false) →
      scanLong z mx pos l = (some e.1.2, (l.map (fun x => x.2)).set i true) := by
  intro l
  induction l with
  | nil => intro i e he _ _; simp at he
  | cons hd tl ih =>
    intro i e he ha hmin
    obtain ⟨⟨thr, qty⟩, flag⟩ := hd
    cases i with
    | zero =>
      obtain rfl : e = ((thr, qty), flag) := by simpa using he.symm
      simp only [longActionable, List.get?] at ha
      simp only [Bool.and_eq_true, decide_eq_true_eq, beq_iff_eq] at ha
      obtain ⟨⟨h1, h2⟩, h3⟩ := ha
      simp only [scanLong]
      rw [if_pos ⟨h1, h2⟩, if_pos h3]
      simp
    | succ j =>
      have h0 := hmin 0 (Nat.succ_pos j)
      have ha' : longActionable z mx pos tl j = true := by
        rwa [longActionable_cons_succ] at ha
      have hmin' : ∀ k, k < j → longActionable z mx pos tl k = false := by
        intro k hk
        have := hmin (k + 1) (by omega)
        rwa [longActionable_cons_succ] at this
      have he' : tl.get? j = some e := he
      have hrec := ih j e he' ha' hmin'
      simp only [longActionable, List.get?] at h0
      simp only [scanLong]
      split_ifs with h1 h2
      · exfalso
        simp [h1.1, h1.2, h2] at h0
      · rw [hrec]
        simp [List.set]
      · rw [hrec]
        simp [List.set]

theorem scanShort_first_actionable (z : ℚ) (mx pos : ℤ) :
    ∀ (l : List ((ℚ × ℤ) × Bool)) (i : ℕ) (e : (ℚ × ℤ) × Bool),
      l.get? i = some e →
      shortActionable z mx pos l i = true →
      (∀ j, j < i → shortActionable z mx pos l j = false) →
      scanShort z mx pos l = (some e.1.2, (l.map (fun x => x.2)).set i true) := by
  intro l
  induction l with
  | nil => intro i e he _ _; simp at he
  | cons hd tl ih =>
    intro i e he ha hmin
    obtain ⟨⟨thr, qty⟩, flag⟩ := hd
    cases i with
    | zero =>
      obtain rfl : e = ((thr, qty), flag) := by simpa using he.symm
      simp only [shortActionable, List.get?] at ha
      simp only [Bool.and_eq_true, decide_eq_true_eq, beq_iff_eq] at ha
      obtain ⟨⟨h1, h2⟩, h3⟩ := ha
      simp only [scanShort]
      rw [if_pos ⟨h1, h2⟩, if_pos h3]
      simp
    | succ j =>
      have h0 := hmin 0 (Nat.succ_pos j)
      have ha' : shortActionable z mx pos tl j = true := by
        rwa [shortActionable_cons_succ] at ha
      have hmin' : ∀ k, k < j → shortActionable z mx pos tl k = false := by
        intro k hk
        have := hmin (k + 1) (by omega)
        rwa [shortActionable_cons_succ] at this
      have he' : tl.get? j = some e := he
      have hrec := ih j e he' ha' hmin'
      simp only [shortActionable, List.get?] at h0
      simp only [scanShort]
      split_ifs with h1 h2
      · exfalso
        simp [h1.1, h1.2, h2] at h0
      · rw [hrec]
        simp [List.set]
      · rw [hrec]
        simp [List.set]

theorem map_snd_zip_flags (l1 : List (ℚ × ℤ)) (l2 : List Bool) (h : l2.length ≤ l1.length) :
    (l1.zip l2).map (fun e => e.2) = l2 :=
  List.map_snd_zip l1 l2 h

/-- C5 (amended): for every call to the layered Policy.decide that reaches
entry evaluation, levels are scanned in list (ascending) order and at most one
order is emitted; a crossed, untriggered level that fails the position-cap
check is skipped — it is not marked triggered — but the scan continues with the
higher levels: the level actioned is the first crossed, untriggered level that
also passes the cap check, and when no level qualifies the decision is `hold`
with the trigger flags unchanged.  (The original claim said no further levels
are checked or actioned after a cap-blocked level; the loop in
engine/policy.py lines 79-99 continues instead, see the counterexample.) -/
theorem c5_blocked_level_skipped (p : Policy) (z : ℚ) (pos : ℤ)
    (mid spread : ℚ) (obs : ℕ) (var : ℚ) (tick : Option ℚ) (trig : Triggered)
    (hw : p.warmup_observations ≤ obs)
    (hv : sqrtLtQ (max var MIN_VARIANCE_THRESHOLD)
      (p.min_std_ticks * pyOrQ tick p.tick_size) = false)
    (hexit : ¬(|z| < p.z_exit ∧ pos ≠ 0))
    (hcap : |pos| < p.max_total_position)
    (hrec : pos = expectedPosition p trig)
    (hlq : trig.long.length ≤ (p.z_entry_levels.zip p.entry_quantities).length)
    (hsq : trig.short.length ≤ (p.z_entry_levels.zip p.entry_quantities).length) :
    (z < 0 →
      (∀ i e, ((p.z_entry_levels.zip p.entry_quantities).zip trig.long).get? i = some e →
        longActionable z p.max_total_position pos
          ((p.z_entry_levels.zip p.entry_quantities).zip trig.long) i = true →
        (∀ j, j < i → longActionable z p.max_total_position pos
          ((p.z_entry_levels.zip p.entry_quantities).zip trig.long) j = false) →
        p.decide z pos mid spread obs var tick (some trig) =
          (placeDecision "buy" e.1.2, some ⟨trig.long.set i true, trig.short⟩))
      ∧ ((∀ j, longActionable z p.max_total_position pos
            ((p.z_entry_levels.zip p.entry_quantities).zip trig.long) j = false) →
        p.decide z pos mid spread obs var tick (some trig) = (holdDecision, some trig)))
    ∧ (0 < z →
      (∀ i e, ((p.z_entry_levels.zip p.entry_quantities).zip trig.short).get? i = some e →
        shortActionable z p.max_total_position pos
          ((p.z_entry_levels.zip p.entry_quantities).zip trig.short) i = true →
        (∀ j, j < i → shortActionable z p.max_total_position pos
          ((p.z_entry_levels.zip p.entry_quantities).zip trig.short) j = false) →
        p.decide z pos mid spread obs var tick (some trig) =
          (placeDecision "sell" e.1.2, some ⟨trig.long, trig.short.set i true⟩))
      ∧ ((∀ j, shortActionable z p.max_total_position pos
            ((p.z_entry_levels.zip p.entry_quantities).zip trig.short) j = false) →
        p.decide z pos mid spread obs var tick (some trig) = (holdDecision, some trig))) := by
  have hdec : p.decide z pos mid spread obs var tick (some trig) = p.entries z pos trig := by
    unfold Policy.decide
    rw [if_neg (by omega), if_neg (by simp [hv]), if_neg hexit,
      if_neg (not_le.mpr hcap)]
    have : ((some trig).getD p.freshTriggered) = trig := rfl
    rw [this, if_neg (by simp [hrec])]
  constructor
  · intro hz
    constructor
    · intro i e he ha hmin
      rw [hdec]
      unfold Policy.entries
      rw [if_pos hz, scanLong_first_actionable z p.max_total_position pos _ i e he ha hmin]
      rw [map_snd_zip_flags _ _ hlq]
    · intro hnone
      rw [hdec]
      unfold Policy.entries
      rw [if_pos hz, scanLong_no_actionable z p.max_total_position pos _ hnone]
      rw [map_snd_zip_flags _ _ hlq]
  · intro hz
    have hz' : ¬(z < 0) := by linarith
    constructor
    · intro i e he ha hmin
      rw [hdec]
      unfold Policy.entries
      rw [if_neg hz', if_pos hz,
        scanShort_first_actionable z p.max_total_position pos _ i e he ha hmin]
      rw [map_snd_zip_flags _ _ hsq]
    · intro hnone
      rw [hdec]
      unfold Policy.entries
      rw [if_neg hz', if_pos hz, scanShort_no_actionable z p.max_total_position pos _ hnone]
      rw [map_snd_zip_flags _ _ hsq]

/-- Counterexample to C5 as stated: at `gapPolicy` with `positionQty = 1` and
`z = -3`, the first crossed, untriggered level (index 0, quantity 3) fails the
position-cap check, yet the call still actions the higher level 1: it returns
`place(buy, 1)` and marks level 1 triggered, instead of holding. -/
theorem c5_counterexample :
    longActionable (-3) gapPolicy.max_total_position 1
      ((gapPolicy.z_entry_levels.zip gapPolicy.entry_quantities).zip [false, false]) 0 = false ∧
    (-3 : ℚ) < -(gapPolicy.z_entry_levels.getD 0 0) ∧
    ¬((1 : ℤ) + gapPolicy.entry_quantities.getD 0 0 ≤ gapPolicy.max_total_position) ∧
    (gapPolicy.decide (-3) 1 0 0 10 100 none (some ⟨[false, false], [false, false]⟩)) =
      (placeDecision "buy" 1, some ⟨[false, true], [false, false]⟩) := by
  refine ⟨by decide, by decide, by decide, ?_⟩
  norm_num [Policy.decide, Policy.entries, Policy.freshTriggered, scanLong,
    expectedPosition, sumTriggered, sqrtLtQ, pyOrQ, gapPolicy, MIN_VARIANCE_THRESHOLD,
    List.replicate]

/-- Witness for C5 (amended): the first actionable level is placed from a flat
position, and a call whose only crossed levels are blocked or already
triggered holds with flags unchanged. -/
theorem c5_blocked_level_skipped_witness :
    gapPolicy.decide (-3) 0 0 0 10 100 none (some ⟨[false, false], [false, false]⟩) =
      (placeDecision "buy" 3, some ⟨[true, false], [false, false]⟩) ∧
    gapPolicy.decide (-3) 1 0 0 10 100 none (some ⟨[false, true], [false, false]⟩) =
      (holdDecision, some ⟨[false, true], [false, false]⟩) := by
  constructor
  · have h := (c5_blocked_level_skipped gapPolicy (-3) 0 0 0 10 100 none
      ⟨[false, false], [false, false]⟩ (by decide)
      (by norm_num [sqrtLtQ, pyOrQ, gapPolicy, MIN_VARIANCE_THRESHOLD])
      (by decide) (by decide) (by decide) (by decide) (by decide)).1 (by norm_num)
    have h2 := h.1 0 ((1, 3), false) (by decide) (by decide) (by intro j hj; omega)
    simpa using h2
  · have h := (c5_blocked_level_skipped gapPolicy (-3) 1 0 0 10 100 none
      ⟨[false, true], [false, false]⟩ (by decide)
      (by norm_num [sqrtLtQ, pyOrQ, gapPolicy, MIN_VARIANCE_THRESHOLD])
      (by decide) (by decide) (by decide) (by decide) (by decide)).1 (by norm_num)
    refine h.2 ?_
    intro j
    rcases j with _ | j
    · decide
    · rcases j with _ | j
      · decide
      · rfl

/-- Counterexample to C4 as stated: at 7:30 AM CT (inside the morning
restriction window) with `positionQty = 1`, the engine returns `flatten`, not
`hold` (engine/engine.py lines 85-94). -/
theorem c4_counterexample :
    DecisionEngine.is_restricted_hours (some (7 * 3600 + 30 * 60)) = true ∧
    DecisionEngine.decide_gate (some (7 * 3600 + 30 * 60)) 1 holdDecision = flattenDecision ∧
    flattenDecision.action ≠ "hold" := by
  refine ⟨by decide, by decide, by decide⟩

/-- C4 (amended): when the tick timestamp falls inside a configured restricted
window, the decision ignores the strategy entirely and depends only on the
reported position: `flatten` when `positionQty ≠ 0`, `hold` when it is zero. -/
theorem c4_restricted_hours_hold_or_flatten (ts : Option ℕ) (pos : ℤ)
    (sd : DecisionMessage) (h : DecisionEngine.is_restricted_hours ts = true) :
    DecisionEngine.decide_gate ts pos sd =
      if pos ≠ 0 then flattenDecision else holdDecision := by
  unfold DecisionEngine.decide_gate
  rw [if_pos h]

/-- Witness for C4 (amended): inside the morning restriction window with a flat
position, the engine holds regardless of the strategy decision. -/
theorem c4_restricted_hours_witness :
    DecisionEngine.decide_gate (some (7 * 3600 + 40 * 60)) 0 (placeDecision "buy" 1) =
      holdDecision := by
  rw [c4_restricted_hours_hold_or_flatten (some (7 * 3600 + 40 * 60)) 0 _ (by decide)]
  decide

/-- Counterexample to C9 as stated: for the non-wrapping session 06:30-15:14, a
time exactly equal to the end (15:14, i.e. 914 minutes) is counted inside the
session by the code, though the half-open claim excludes it. -/
theorem c9_counterexample :
    SessionManager.is_time_in_session 914 390 914 = true ∧ ¬(390 ≤ 914 ∧ 914 < 914) := by
  refine ⟨by decide, by decide⟩

/-- C9 (amended): session membership is `now ≥ start ∨ now ≤ end` for
wrap-around sessions (`end < start`) and the closed interval
`start ≤ now ≤ end` — end inclusive — otherwise. -/
theorem c9_session_membership (now start_time end_time : ℕ) :
    SessionManager.is_time_in_session now start_time end_time = true ↔
      (if end_time < start_time then start_time ≤ now ∨ now ≤ end_time
       else start_time ≤ now ∧ now ≤ end_time) := by
  unfold SessionManager.is_time_in_session
  split_ifs with h <;> simp

/-- C8: session reset mutates exactly the statistics and the trigger/scaling
bookkeeping: afterwards `observationCount = 0`, the EWMA fields equal their
initial priors, the trend-filter accumulators are cleared and both flags are
false, while `positionQty` (and `currentSessionDate`, rewritten only by the
caller) are unchanged for every prior state; the engine-level
`_maybe_reset_session` likewise preserves `positionQty`. -/
theorem c8_session_reset_frame (s : SymbolState) (d : String) :
    (s.reset_session).observationCount = 0 ∧
    (s.reset_session).emaDeviation = 0 ∧
    (s.reset_session).emaVariance = INITIAL_EMA_VARIANCE ∧
    (s.reset_session).adx_values = [] ∧
    (s.reset_session).high_prices = [] ∧
    (s.reset_session).low_prices = [] ∧
    (s.reset_session).z_score_persistence_start = none ∧
    (s.reset_session).z_score_above_threshold = false ∧
    (s.reset_session).scaling_order_sent = false ∧
    (s.reset_session).positionQty = s.positionQty ∧
    (s.reset_session).currentSessionDate = s.currentSessionDate ∧
    (DecisionEngine.maybe_reset_session s d).positionQty = s.positionQty := by
  refine ⟨rfl, rfl, rfl, rfl, rfl, rfl, rfl, rfl, rfl, rfl, rfl, ?_⟩
  simp only [DecisionEngine.maybe_reset_session]
  split_ifs with h
  · rfl
  · rfl

/-- C6: the indicator update obeys the specified recurrence.  When
`observationCount = 1` it seeds `emaDeviation = deviation` and
`emaVariance = 2·|deviation|`; for every `observationCount ≥ 2` it sets
`emaDeviation' = (1-α)·emaDeviation + α·deviation` and
`emaVariance' = (1-α)·emaVariance + α·(deviation - prevEma)²`, with `prevEma`
the mean captured before the update. -/
theorem c6_ewma_recurrence (s : SymbolState) (d a : ℚ) :
    (s.observationCount = 1 →
      (update_ewma_z_core s d a).emaDeviation = d ∧
      (update_ewma_z_core s d a).emaVariance = 2 * |d|) ∧
    (2 ≤ s.observationCount →
      (update_ewma_z_core s d a).emaDeviation = (1 - a) * s.emaDeviation + a * d ∧
      (update_ewma_z_core s d a).emaVariance =
        (1 - a) * s.emaVariance + a * (d - s.emaDeviation) ^ 2) := by
  constructor
  · intro h
    unfold update_ewma_z_core
    rw [if_pos h]
    exact ⟨rfl, mul_comm _ _⟩
  · intro h
    unfold update_ewma_z_core
    rw [if_neg (by omega)]
    exact ⟨rfl, rfl⟩

/-- Witness for C6 at concrete seeded and post-seed states. -/
theorem c6_ewma_recurrence_witness :
    (update_ewma_z_core ⟨1, 0, 16, none, 0, [], [], [], none, false, false⟩ 3 1).emaDeviation = 3 ∧
    (update_ewma_z_core ⟨1, 0, 16, none, 0, [], [], [], none, false, false⟩ 3 1).emaVariance =
      2 * |(3 : ℚ)| ∧
    (update_ewma_z_core ⟨2, 5, 16, none, 0, [], [], [], none, false, false⟩ 3 1).emaDeviation =
      (1 - 1) * 5 + 1 * 3 ∧
    (update_ewma_z_core ⟨2, 5, 16, none, 0, [], [], [], none, false, false⟩ 3 1).emaVariance =
      (1 - 1) * 16 + 1 * (3 - 5) ^ 2 :=
  ⟨(c6_ewma_recurrence ⟨1, 0, 16, none, 0, [], [], [], none, false, false⟩ 3 1).1 rfl |>.1,
   (c6_ewma_recurrence ⟨1, 0, 16, none, 0, [], [], [], none, false, false⟩ 3 1).1 rfl |>.2,
   (c6_ewma_recurrence ⟨2, 5, 16, none, 0, [], [], [], none, false, false⟩ 3 1).2 (by decide) |>.1,
   (c6_ewma_recurrence ⟨2, 5, 16, none, 0, [], [], [], none, false, false⟩ 3 1).2 (by decide) |>.2⟩

/-- C7: the smoothed variance floor returns at least the (strictly positive)
minimum threshold for every rational input, so the effective variance used by
update_ewma_z is at least `MIN_VARIANCE_THRESHOLD = 4` and the z-score
denominator `sqrt(effectiveVariance)` is never zero. -/
theorem c7_variance_floor_positive :
    (∀ v minT : ℚ, 0 < minT → minT ≤ smooth_variance_floor v minT) ∧
    (∀ (s : SymbolState) (d a : ℚ),
      MIN_VARIANCE_THRESHOLD ≤ update_ewma_z_effectiveVariance s d a ∧
      Real.sqrt ((update_ewma_z_effectiveVariance s d a : ℚ) : ℝ) ≠ 0) := by
  have floor : ∀ v m : ℚ, 0 < m → m ≤ smooth_variance_floor v m := by
    intro v m hm
    simp only [smooth_variance_floor]
    split_ifs with h1 h2
    · exact le_refl m
    · have hv : m < v := lt_of_not_le h1
      have h3 : 0 ≤ v - m := by linarith
      have h4 : 0 ≤ (v - m) * ((v - m) / (m * (1/2))) :=
        mul_nonneg h3 (div_nonneg h3 (by positivity))
      linarith
    · have hv : m < v := lt_of_not_le h1
      linarith
  refine ⟨floor, fun s d a => ?_⟩
  have h4 := floor (bias_corrected_variance (update_ewma_z_core s d a) a)
    MIN_VARIANCE_THRESHOLD (by norm_num [MIN_VARIANCE_THRESHOLD])
  refine ⟨h4, ?_⟩
  have hpos : (0 : ℚ) < update_ewma_z_effectiveVariance s d a :=
    lt_of_lt_of_le (by norm_num [MIN_VARIANCE_THRESHOLD]) h4
  have hR : (0 : ℝ) < ((update_ewma_z_effectiveVariance s d a : ℚ) : ℝ) := by
    exact_mod_cast hpos
  exact ne_of_gt (Real.sqrt_pos.mpr hR)

/-- Witness for C7 in the blending zone (`4 < 5 < 6`). -/
theorem c7_variance_floor_witness :
    (0 : ℚ) < 4 ∧ (4 : ℚ) ≤ smooth_variance_floor 5 4 :=
  ⟨by norm_num, c7_variance_floor_positive.1 5 4 (by norm_num)⟩

theorem update_price_momentum_raises (s : SymbolState) (cp : ℚ) (ts : Option PyDatetime) :
    TrendFilter.update_price_momentum s cp ts = .error (.attributeError "price_history") := rfl

/-- C1: contrary to the never-throws claim, per-tick decision processing
raises.  For every state and every tick whose timestamp is absent or inside
the NY session, TrendFilter.should_avoid_mean_reversion — called by
VWAPReversionStrategy.decide, itself called by DecisionEngine.decide — raises
AttributeError: its first step reads `state.price_history`, which
SymbolState's `__slots__` does not declare (the code comment claims it is
"always initialized in SymbolState"). -/
theorem c1_trend_filter_raises (s : SymbolState) (z hp lp cp : ℚ) (ts : Option PyDatetime)
    (h : ∀ t, ts = some t → TrendFilter.is_ny_session t = true) :
    TrendFilter.should_avoid_mean_reversion s z hp lp cp ts =
      .error (.attributeError "price_history") := by
  unfold TrendFilter.should_avoid_mean_reversion
  rcases ts with _ | t
  · rw [if_neg (by simp)]
    rw [update_price_momentum_raises]
    rfl
  · have hny := h t rfl
    rw [if_neg (by simp [hny])]
    rw [update_price_momentum_raises]
    rfl

/-- Witness for C1 at a fresh state and a 10:00 AM CT tick. -/
theorem c1_trend_filter_raises_witness :
    TrendFilter.should_avoid_mean_reversion SymbolState.init 0 0 0 0
      (some ⟨10 * 3600, 0⟩) = .error (.attributeError "price_history") :=
  c1_trend_filter_raises SymbolState.init 0 0 0 0 (some ⟨10 * 3600, 0⟩)
    (by intro t ht; cases ht; decide)
